import Mathlib

/-!
Verification of the lightmap-UV cache core of `dw-sample-framework`
(`src/mesh.cpp`): the FNV-1a geometry hash (`Mesh::compute_mesh_hash`),
the binary lightmap-cache codec (`Mesh::save_lightmap_cache` /
`Mesh::load_lightmap_cache`), the atlas consolidation step
(`Mesh::generate_lightmap_uvs`), and the constructor-level cache
orchestration (`Mesh::Mesh`).

Modelling conventions:
* 32-bit floats are represented by their bit patterns, as natural numbers
  below 2^32; the code only ever moves them around byte-wise
  (`reinterpret_cast` for hashing and file I/O), so the bit-pattern view
  is exact.
* Byte streams are `List Nat` with every element below 256.
* The external xatlas packer is an input to the consolidator: its output
  (atlas dimensions, vertex array with back-references, index array) is
  passed in explicitly, mirroring how `generate_lightmap_uvs` consumes
  `atlas->width/height/meshes`.
* IEEE single-precision division (`xvert.uv[0] / float(atlas->width)`) is
  abstracted by an arbitrary function `fdiv` from a float bit pattern and
  an atlas dimension to a float bit pattern; all consolidation theorems
  are proved for every such `fdiv`.
-/

namespace DW

/-- 2^32, the number of 32-bit values. -/
def U32 : Nat := 4294967296

/-- 2^64, the number of 64-bit values. -/
def U64 : Nat := 18446744073709551616

/-- A 4-component vector of 32-bit float bit patterns (`glm::vec4`). -/
structure Vec4 where
  x : Nat
  y : Nat
  z : Nat
  w : Nat
deriving Repr, DecidableEq

/-- A 3-component vector of 32-bit float bit patterns (`glm::vec3`). -/
structure Vec3 where
  x : Nat
  y : Nat
  z : Nat
deriving Repr, DecidableEq

/-- The engine vertex (`dw::Mesh::Vertex`): six `glm::vec4` fields stored
contiguously; the 4th component of `position` carries the material index
reinterpreted as a float. -/
structure Vertex where
  position : Vec4
  normal : Vec4
  tangent : Vec4
  bitangent : Vec4
  tex_coord : Vec4
  lightmap_tex_coord : Vec4
deriving Repr, DecidableEq

/-- The engine submesh descriptor (`dw::SubMesh`): name (modelled as its
byte sequence), material index, index range, vertex range, and local
bounding box. -/
structure SubMesh where
  name : List Nat
  mat_idx : Nat
  index_count : Nat
  base_vertex : Nat
  base_index : Nat
  vertex_count : Nat
  max_extents : Vec3
  min_extents : Vec3
deriving Repr, DecidableEq

/-- The mesh fields touched by the lightmap pipeline: `m_vertices`,
`m_indices`, `m_sub_meshes`, `m_lightmap_width`, `m_lightmap_height`,
`m_has_lightmap_uvs`. -/
structure MeshState where
  m_vertices : List Vertex
  m_indices : List Nat
  m_sub_meshes : List SubMesh
  m_lightmap_width : Nat
  m_lightmap_height : Nat
  m_has_lightmap_uvs : Bool
deriving Repr, DecidableEq

/-! ### Byte-level primitives -/

/-- Little-endian bytes of a 32-bit value (`reinterpret_cast` of a
`uint32_t` / `float` on a little-endian platform). -/
def u32bytes (n : Nat) : List Nat :=
  [n % 256, n / 256 % 256, n / 65536 % 256, n / 16777216 % 256]

/-- Little-endian bytes of a 64-bit value. -/
def u64bytes (n : Nat) : List Nat :=
  [n % 256, n / 256 % 256, n / 65536 % 256, n / 16777216 % 256,
   n / 4294967296 % 256, n / 1099511627776 % 256,
   n / 281474976710656 % 256, n / 72057594037927936 % 256]

/-- Raw bytes of a `glm::vec4` (4 consecutive little-endian floats). -/
def vec4bytes (v : Vec4) : List Nat :=
  u32bytes v.x ++ u32bytes v.y ++ u32bytes v.z ++ u32bytes v.w

/-- Raw bytes of a `glm::vec3` (3 consecutive little-endian floats). -/
def vec3bytes (v : Vec3) : List Nat :=
  u32bytes v.x ++ u32bytes v.y ++ u32bytes v.z

/-! ### Geometry hash (`Mesh::compute_mesh_hash`) -/

/-- The FNV-1a 64-bit prime `1099511628211ULL`. -/
def FNV_PRIME : Nat := 1099511628211

/-- The FNV-1a 64-bit offset basis `14695981039346656037ULL`. -/
def FNV_OFFSET : Nat := 14695981039346656037

/-- One FNV-1a step on a byte: `hash ^= b; hash *= FNV_PRIME` with 64-bit
wraparound. -/
def fnvByte (h b : Nat) : Nat := (h ^^^ b) * FNV_PRIME % U64

/-- FNV-1a folded over a byte sequence. -/
def fnvBytes (h : Nat) (bs : List Nat) : Nat := bs.foldl fnvByte h

/-- One FNV-1a step on a whole 32-bit field value, as done for submesh
`index_count` / `base_index` (`hash ^= sm.index_count; hash *= FNV_PRIME`). -/
def fnvField (h n : Nat) : Nat := (h ^^^ n) * FNV_PRIME % U64

/-- `Mesh::compute_mesh_hash`: FNV-1a over the raw bytes of each vertex's
`position` (16 bytes each), then the raw bytes of each index (4 bytes
each), then each submesh's `index_count` and `base_index` field values. -/
def compute_mesh_hash (st : MeshState) : Nat :=
  let h1 := st.m_vertices.foldl (fun h v => fnvBytes h (vec4bytes v.position)) FNV_OFFSET
  let h2 := st.m_indices.foldl (fun h i => fnvBytes h (u32bytes i)) h1
  st.m_sub_meshes.foldl (fun h sm => fnvField (fnvField h sm.index_count) sm.base_index) h2

/-- The hash algorithm as the specification words it: one FNV-1a fold over
the byte stream made of every vertex position's raw bytes followed by
every index's raw bytes, then folded over each submesh's
(`index_count`, `base_index`) field pair. -/
def hash_spec (st : MeshState) : Nat :=
  let stream := (st.m_vertices.map (fun v => vec4bytes v.position)).flatten
    ++ (st.m_indices.map u32bytes).flatten
  let h := fnvBytes FNV_OFFSET stream
  (st.m_sub_meshes.map (fun sm => (sm.index_count, sm.base_index))).foldl
    (fun h p => fnvField (fnvField h p.1) p.2) h

/-! ### Cache codec (`Mesh::save_lightmap_cache` / `Mesh::load_lightmap_cache`) -/

/-- `LIGHTMAP_CACHE_MAGIC` = `0x4C4D4150` ("LMAP"). -/
def LIGHTMAP_CACHE_MAGIC : Nat := 1280594256

/-- `LIGHTMAP_CACHE_VERSION` = 1. -/
def LIGHTMAP_CACHE_VERSION : Nat := 1

/-- Raw bytes of one `Vertex` record, as `file.write` emits the packed
96-byte struct (6 consecutive `glm::vec4`s, no padding). -/
def vertexBytes (v : Vertex) : List Nat :=
  vec4bytes v.position ++ vec4bytes v.normal ++ vec4bytes v.tangent
    ++ vec4bytes v.bitangent ++ vec4bytes v.tex_coord ++ vec4bytes v.lightmap_tex_coord

/-- Raw bytes of one submesh record: `name_length:u32, name_bytes,
mat_idx:u32, index_count:u32, base_vertex:u32, base_index:u32,
vertex_count:u32, max_extents:3xf32, min_extents:3xf32`, exactly the
write order in `save_lightmap_cache`. -/
def subMeshBytes (sm : SubMesh) : List Nat :=
  u32bytes sm.name.length ++ sm.name
    ++ u32bytes sm.mat_idx ++ u32bytes sm.index_count ++ u32bytes sm.base_vertex
    ++ u32bytes sm.base_index ++ u32bytes sm.vertex_count
    ++ vec3bytes sm.max_extents ++ vec3bytes sm.min_extents

/-- `Mesh::save_lightmap_cache`: the byte stream written to the cache
file — header (`magic, version, hash, vertex_count, index_count,
submesh_count, atlas_width, atlas_height`), then the packed vertex
array, the index array, and the submesh records. -/
def save_lightmap_cache (st : MeshState) (mesh_hash : Nat) : List Nat :=
  u32bytes LIGHTMAP_CACHE_MAGIC ++ u32bytes LIGHTMAP_CACHE_VERSION
    ++ u64bytes mesh_hash
    ++ u32bytes st.m_vertices.length ++ u32bytes st.m_indices.length
    ++ u32bytes st.m_sub_meshes.length
    ++ u32bytes st.m_lightmap_width ++ u32bytes st.m_lightmap_height
    ++ st.m_vertices.flatMap vertexBytes
    ++ st.m_indices.flatMap u32bytes
    ++ st.m_sub_meshes.flatMap subMeshBytes

/-- The distinct failure exits of `load_lightmap_cache`, one per early
`return false` site (the code distinguishes them by log message). -/
inductive CacheError where
  | headerTruncated
  | invalidFormat
  | versionMismatch
  | staleCache
  | dataTruncated
deriving Repr, DecidableEq

/-- A truncation-class failure (short read), at the header or in the data
section. -/
def CacheError.isTruncation : CacheError → Bool
  | .headerTruncated => true
  | .dataTruncated => true
  | _ => false

/-- Read `n` raw bytes from the stream; fails (like `istream::read`
setting `failbit`) when fewer than `n` remain. -/
def rdBytes : Nat → List Nat → Option (List Nat × List Nat)
  | 0, s => some ([], s)
  | _ + 1, [] => none
  | n + 1, b :: s =>
    match rdBytes n s with
    | some (bs, rest) => some (b :: bs, rest)
    | none => none

/-- A sequential byte-stream reader: consumes a prefix of the stream and
yields a value plus the unread remainder, or fails on a short read. -/
def Rd (α : Type) : Type := List Nat → Option (α × List Nat)

/-- Sequencing of two reads (one `file.read` after another). -/
def pBind (p : Rd α) (f : α → Rd β) : Rd β := fun s =>
  match p s with
  | none => none
  | some (a, s) => f a s

/-- A read that consumes nothing. -/
def pPure (a : α) : Rd α := fun s => some (a, s)

/-- Little-endian value of a byte sequence. -/
def leVal : List Nat → Nat
  | [] => 0
  | b :: bs => b + 256 * leVal bs

/-- Read one little-endian `uint32_t`. -/
def rdU32 : Rd Nat := pBind (rdBytes 4) fun bs => pPure (leVal bs)

/-- Read one little-endian `uint64_t`. -/
def rdU64 : Rd Nat := pBind (rdBytes 8) fun bs => pPure (leVal bs)

/-- Read one `glm::vec4` (4 little-endian floats as bit patterns). -/
def rdVec4 : Rd Vec4 :=
  pBind rdU32 fun x => pBind rdU32 fun y => pBind rdU32 fun z => pBind rdU32 fun w =>
    pPure ⟨x, y, z, w⟩

/-- Read one `glm::vec3`. -/
def rdVec3 : Rd Vec3 :=
  pBind rdU32 fun x => pBind rdU32 fun y => pBind rdU32 fun z => pPure ⟨x, y, z⟩

/-- Read one packed `Vertex` record. -/
def rdVertex : Rd Vertex :=
  pBind rdVec4 fun p => pBind rdVec4 fun n => pBind rdVec4 fun t => pBind rdVec4 fun b =>
    pBind rdVec4 fun uv => pBind rdVec4 fun luv => pPure ⟨p, n, t, b, uv, luv⟩

/-- Read one submesh record in the order `load_lightmap_cache` reads it:
name length, name bytes, `mat_idx`, `index_count`, `base_vertex`,
`base_index`, `vertex_count`, `max_extents`, `min_extents`. -/
def rdSubMesh : Rd SubMesh :=
  pBind rdU32 fun nameLen => pBind (rdBytes nameLen) fun name =>
    pBind rdU32 fun matIdx => pBind rdU32 fun idxCount => pBind rdU32 fun baseVtx =>
      pBind rdU32 fun baseIdx => pBind rdU32 fun vtxCount =>
        pBind rdVec3 fun maxE => pBind rdVec3 fun minE =>
          pPure ⟨name, matIdx, idxCount, baseVtx, baseIdx, vtxCount, maxE, minE⟩

/-- Read `n` records with a given element reader. -/
def rdList (rd : Rd α) : Nat → Rd (List α)
  | 0 => pPure []
  | n + 1 => pBind rd fun a => pBind (rdList rd n) fun as => pPure (a :: as)

/-- The fixed cache header, in the order the code reads it. -/
structure CacheHeader where
  magic : Nat
  version : Nat
  stored_hash : Nat
  vertex_count : Nat
  index_count : Nat
  submesh_count : Nat
  lightmap_width : Nat
  lightmap_height : Nat
deriving Repr, DecidableEq

/-- Read the 36-byte header (8 sequential `file.read` calls; the code
checks `file.fail()` once after all of them). -/
def rdHeader : Rd CacheHeader :=
  pBind rdU32 fun magic => pBind rdU32 fun version => pBind rdU64 fun h =>
    pBind rdU32 fun vc => pBind rdU32 fun ic => pBind rdU32 fun sc =>
      pBind rdU32 fun lw => pBind rdU32 fun lh =>
        pPure ⟨magic, version, h, vc, ic, sc, lw, lh⟩

/-- The fully decoded contents of a cache record. -/
structure CacheRecord where
  vertices : List Vertex
  indices : List Nat
  submeshes : List SubMesh
  stored_hash : Nat
  width : Nat
  height : Nat
deriving Repr, DecidableEq

/-- The data section of the decode: `vertex_count` vertex records,
`index_count` indices, `submesh_count` submesh records; any short read
is a truncation failure (the code's final `file.fail()` check). -/
def parse_body (hdr : CacheHeader) (s : List Nat) :
    Except CacheError (CacheRecord × List Nat) :=
  match rdList rdVertex hdr.vertex_count s with
  | none => .error .dataTruncated
  | some (vs, s) =>
    match rdList rdU32 hdr.index_count s with
    | none => .error .dataTruncated
    | some (is, s) =>
      match rdList rdSubMesh hdr.submesh_count s with
      | none => .error .dataTruncated
      | some (sms, rest) =>
        .ok (⟨vs, is, sms, hdr.stored_hash, hdr.lightmap_width, hdr.lightmap_height⟩, rest)

/-- The parsing-and-validation part of `Mesh::load_lightmap_cache`:
read the header, validate magic, then version, then hash against the
caller's expected hash, then read the vertex, index, and submesh data.
Any short read before that point is a truncation failure; the code never
checks that the stream ends, so trailing bytes are returned unread. -/
def parse_cache (data : List Nat) (expected_hash : Nat) :
    Except CacheError (CacheRecord × List Nat) :=
  match rdHeader data with
  | none => .error .headerTruncated
  | some (hdr, s) =>
    if hdr.magic ≠ LIGHTMAP_CACHE_MAGIC then .error .invalidFormat
    else if hdr.version ≠ LIGHTMAP_CACHE_VERSION then .error .versionMismatch
    else if hdr.stored_hash ≠ expected_hash then .error .staleCache
    else parse_body hdr s

/-- `Mesh::load_lightmap_cache` as a state transformer: on parse success
the decoded geometry and atlas dimensions replace the mesh's, and
`m_has_lightmap_uvs` is set; on any failure the function returns `false`
and the mesh state is exactly the input state (all `m_*` assignments in
the code happen only after the final `file.fail()` check). -/
def load_lightmap_cache (st : MeshState) (data : List Nat) (expected_hash : Nat) :
    Bool × MeshState :=
  match parse_cache data expected_hash with
  | .error _ => (false, st)
  | .ok (r, _) =>
    (true,
      { st with
        m_vertices := r.vertices
        m_indices := r.indices
        m_sub_meshes := r.submeshes
        m_lightmap_width := r.width
        m_lightmap_height := r.height
        m_has_lightmap_uvs := true })

/-! ### Well-formedness (field values representable at their C++ widths) -/

/-- Every component is a 32-bit value. -/
def WFVec4 (v : Vec4) : Prop :=
  v.x < U32 ∧ v.y < U32 ∧ v.z < U32 ∧ v.w < U32

/-- Every component is a 32-bit value. -/
def WFVec3 (v : Vec3) : Prop :=
  v.x < U32 ∧ v.y < U32 ∧ v.z < U32

/-- Every field of the vertex is a 32-bit value. -/
def WFVertex (v : Vertex) : Prop :=
  WFVec4 v.position ∧ WFVec4 v.normal ∧ WFVec4 v.tangent ∧ WFVec4 v.bitangent
    ∧ WFVec4 v.tex_coord ∧ WFVec4 v.lightmap_tex_coord

/-- Name bytes are bytes, the name length and all scalar fields fit in 32
bits. -/
def WFSubMesh (sm : SubMesh) : Prop :=
  sm.name.length < U32 ∧ (∀ b ∈ sm.name, b < 256)
    ∧ sm.mat_idx < U32 ∧ sm.index_count < U32 ∧ sm.base_vertex < U32
    ∧ sm.base_index < U32 ∧ sm.vertex_count < U32
    ∧ WFVec3 sm.max_extents ∧ WFVec3 sm.min_extents

/-- 2^31. The loader sizes its vertex and index reads with
`static_cast<int32_t>(count) * sizeof(...)`, so only counts below 2^31
are handled faithfully; larger counts would make the cast negative and
the read fail. -/
def U31 : Nat := 2147483648

/-- The whole mesh state is representable: every element is
well-formed, the vertex and index counts stay below 2^31 (the
`int32_t` sizing cast in the codec), and the remaining counts fit in
32 bits. -/
def WFMesh (st : MeshState) : Prop :=
  (∀ v ∈ st.m_vertices, WFVertex v) ∧ (∀ i ∈ st.m_indices, i < U32)
    ∧ (∀ sm ∈ st.m_sub_meshes, WFSubMesh sm)
    ∧ st.m_vertices.length < U31 ∧ st.m_indices.length < U31
    ∧ st.m_sub_meshes.length < U32
    ∧ st.m_lightmap_width < U32 ∧ st.m_lightmap_height < U32

instance : DecidablePred WFVec4 := fun v => by unfold WFVec4; infer_instance

instance : DecidablePred WFVec3 := fun v => by unfold WFVec3; infer_instance

instance : DecidablePred WFVertex := fun v => by unfold WFVertex; infer_instance

instance : DecidablePred WFSubMesh := fun sm => by unfold WFSubMesh; infer_instance

instance : DecidablePred WFMesh := fun st => by unfold WFMesh; infer_instance

/-! ### Hash lemmas -/

/-- The hash as a function of exactly the data it reads: vertex
positions, indices, and submesh (index_count, base_index) pairs. -/
def hashParts (ps : List Vec4) (is : List Nat) (sms : List (Nat × Nat)) : Nat :=
  let h1 := ps.foldl (fun h p => fnvBytes h (vec4bytes p)) FNV_OFFSET
  let h2 := is.foldl (fun h i => fnvBytes h (u32bytes i)) h1
  sms.foldl (fun h p => fnvField (fnvField h p.1) p.2) h2

theorem compute_mesh_hash_parts (st : MeshState) :
    compute_mesh_hash st =
      hashParts (st.m_vertices.map (fun v => v.position)) st.m_indices
        (st.m_sub_meshes.map (fun sm => (sm.index_count, sm.base_index))) := by
  unfold compute_mesh_hash hashParts
  rw [List.foldl_map, List.foldl_map]

/-! ### Atlas consolidation (`Mesh::generate_lightmap_uvs`) -/

/-- One xatlas output vertex: back-reference `xref` into the pre-atlas
vertex list and a 2D atlas-pixel-space position `uv` (float bit
patterns). -/
structure XVertex where
  xref : Nat
  uv0 : Nat
  uv1 : Nat
deriving Repr, DecidableEq

/-- One xatlas output mesh: `vertexArray` (with `vertexCount` =
`vertexArray.length`) and `indexArray` (already expressed in output
vertex indices). -/
structure XMesh where
  vertexArray : List XVertex
  indexArray : List Nat
deriving Repr, DecidableEq

/-- The xatlas packer's observable output consumed by
`generate_lightmap_uvs`: whether `xatlas::AddMesh` succeeded, the packed
atlas `width`/`height`, and the output meshes (`meshCount` =
`meshes.length`). -/
structure Atlas where
  addMeshOk : Bool
  width : Nat
  height : Nat
  meshes : List XMesh
deriving Repr, DecidableEq

/-- The all-zero vertex, used only as an out-of-range indexing default. -/
def zeroVertex : Vertex :=
  ⟨⟨0, 0, 0, 0⟩, ⟨0, 0, 0, 0⟩, ⟨0, 0, 0, 0⟩, ⟨0, 0, 0, 0⟩, ⟨0, 0, 0, 0⟩, ⟨0, 0, 0, 0⟩⟩

/-- The empty xatlas mesh, used only as an out-of-range indexing default. -/
def emptyXMesh : XMesh := ⟨[], []⟩

/-- The submesh re-basing loop: walking the submeshes in order,
`base_index` becomes the running index offset `cur`, `base_vertex`
becomes 0, `vertex_count` becomes the new total vertex count `totalVC`,
and `cur` advances by the (unchanged) `index_count`. -/
def rebaseSubMeshes (totalVC : Nat) : Nat → List SubMesh → List SubMesh
  | _, [] => []
  | cur, sm :: rest =>
    { sm with base_index := cur, base_vertex := 0, vertex_count := totalVC }
      :: rebaseSubMeshes totalVC (cur + sm.index_count) rest

/-- `Mesh::generate_lightmap_uvs`, with the external packer's output
`atlas` passed in explicitly and IEEE float division abstracted by
`fdiv` (bit pattern of `uvComponent / float(dimension)`). Returns the
C++ `bool` result together with the resulting mesh state. The checks
appear in source order: empty geometry, `xatlas::AddMesh` failure, zero
atlas dimensions, then — after `m_lightmap_width`/`m_lightmap_height`
have already been assigned — the `meshCount != 1` check. On success each
output vertex is a copy of the pre-atlas vertex at its `xref` with the
lightmap UV overwritten, the index buffer is the packer's, and submeshes
are re-based. -/
def generate_lightmap_uvs (fdiv : Nat → Nat → Nat) (atlas : Atlas) (st : MeshState) :
    Bool × MeshState :=
  if st.m_vertices.isEmpty || st.m_indices.isEmpty then (false, st)
  else if !atlas.addMeshOk then (false, st)
  else if atlas.width = 0 || atlas.height = 0 then (false, st)
  else
    let st1 := { st with m_lightmap_width := atlas.width, m_lightmap_height := atlas.height }
    if atlas.meshes.length ≠ 1 then (false, st1)
    else
      let xmesh := atlas.meshes.getD 0 emptyXMesh
      let new_vertices := xmesh.vertexArray.map (fun xv =>
        { st.m_vertices.getD xv.xref zeroVertex with
          lightmap_tex_coord := ⟨fdiv xv.uv0 atlas.width, fdiv xv.uv1 atlas.height, 0, 0⟩ })
      let new_indices := xmesh.indexArray
      (true,
        { st1 with
          m_vertices := new_vertices
          m_indices := new_indices
          m_sub_meshes := rebaseSubMeshes new_vertices.length 0 st1.m_sub_meshes
          m_has_lightmap_uvs := true })

/-! ### Reader lemmas: extension, consumed length, and decode-of-encode -/

/-- A reader is extension-stable: appending bytes after a successful
parse never changes the value, only the unread remainder. -/
def RdExt (rd : Rd α) : Prop :=
  ∀ (xs : List Nat) (v : α) (r : List Nat), rd xs = some (v, r) →
    ∀ ys : List Nat, rd (xs ++ ys) = some (v, r ++ ys)

/-- A reader consumes exactly `k` bytes whenever it succeeds. -/
def RdLen (rd : Rd α) (k : Nat) : Prop :=
  ∀ (xs : List Nat) (v : α) (r : List Nat), rd xs = some (v, r) →
    xs.length = k + r.length

/-- A reader decodes the given byte encoding back to the given value,
whatever follows it. -/
def RdEnc (rd : Rd α) (bytes : List Nat) (a : α) : Prop :=
  ∀ r : List Nat, rd (bytes ++ r) = some (a, r)

theorem pPure_ext (a : α) : RdExt (pPure a) := by
  intro xs v r h ys
  simp only [pPure, Option.some.injEq, Prod.mk.injEq] at h
  simp [pPure, h.1, h.2]

theorem pBind_ext {p : Rd α} {f : α → Rd β} (hp : RdExt p) (hf : ∀ a, RdExt (f a)) :
    RdExt (pBind p f) := by
  intro xs v r h ys
  unfold pBind at h ⊢
  cases hps : p xs with
  | none => rw [hps] at h; exact absurd h (by simp)
  | some ar =>
    obtain ⟨a, s⟩ := ar
    rw [hps] at h
    rw [hp xs a s hps ys]
    exact hf a s v r h ys

theorem rdBytes_ext : ∀ (n : Nat), RdExt (rdBytes n) := by
  intro n
  induction n with
  | zero => intro xs v r h ys; simp_all [rdBytes]
  | succ m ih =>
    intro xs v r h ys
    cases xs with
    | nil => simp [rdBytes] at h
    | cons b s =>
      simp only [rdBytes] at h
      cases hbs : rdBytes m s with
      | none => rw [hbs] at h; simp at h
      | some br =>
        obtain ⟨bs, rest⟩ := br
        rw [hbs] at h
        simp only [Option.some.injEq, Prod.mk.injEq] at h
        obtain ⟨hv, hr⟩ := h
        subst hv hr
        simp only [List.cons_append, rdBytes, List.append_eq]
        rw [ih s bs rest hbs ys]

theorem rdU32_ext : RdExt rdU32 := pBind_ext (rdBytes_ext 4) (fun bs => pPure_ext (leVal bs))

theorem rdU64_ext : RdExt rdU64 := pBind_ext (rdBytes_ext 8) (fun bs => pPure_ext (leVal bs))

theorem rdVec4_ext : RdExt rdVec4 :=
  pBind_ext rdU32_ext fun _ => pBind_ext rdU32_ext fun _ => pBind_ext rdU32_ext fun _ =>
    pBind_ext rdU32_ext fun _ => pPure_ext _

theorem rdVec3_ext : RdExt rdVec3 :=
  pBind_ext rdU32_ext fun _ => pBind_ext rdU32_ext fun _ => pBind_ext rdU32_ext fun _ =>
    pPure_ext _

theorem rdVertex_ext : RdExt rdVertex :=
  pBind_ext rdVec4_ext fun _ => pBind_ext rdVec4_ext fun _ => pBind_ext rdVec4_ext fun _ =>
    pBind_ext rdVec4_ext fun _ => pBind_ext rdVec4_ext fun _ => pBind_ext rdVec4_ext fun _ =>
      pPure_ext _

theorem rdSubMesh_ext : RdExt rdSubMesh :=
  pBind_ext rdU32_ext fun nameLen => pBind_ext (rdBytes_ext nameLen) fun _ =>
    pBind_ext rdU32_ext fun _ => pBind_ext rdU32_ext fun _ => pBind_ext rdU32_ext fun _ =>
      pBind_ext rdU32_ext fun _ => pBind_ext rdU32_ext fun _ =>
        pBind_ext rdVec3_ext fun _ => pBind_ext rdVec3_ext fun _ => pPure_ext _

theorem rdList_ext {rd : Rd α} (hrd : RdExt rd) : ∀ n, RdExt (rdList rd n) := by
  intro n
  induction n with
  | zero => exact pPure_ext _
  | succ m ih => exact pBind_ext hrd fun a => pBind_ext ih fun as => pPure_ext _

theorem rdHeader_ext : RdExt rdHeader :=
  pBind_ext rdU32_ext fun _ => pBind_ext rdU32_ext fun _ => pBind_ext rdU64_ext fun _ =>
    pBind_ext rdU32_ext fun _ => pBind_ext rdU32_ext fun _ => pBind_ext rdU32_ext fun _ =>
      pBind_ext rdU32_ext fun _ => pBind_ext rdU32_ext fun _ => pPure_ext _

theorem pPure_len (a : α) : RdLen (pPure a) 0 := by
  intro xs v r h
  simp only [pPure, Option.some.injEq, Prod.mk.injEq] at h
  simp [h.2]

theorem pBind_len {p : Rd α} {f : α → Rd β} {k1 k2 : Nat}
    (hp : RdLen p k1) (hf : ∀ a, RdLen (f a) k2) : RdLen (pBind p f) (k1 + k2) := by
  intro xs v r h
  unfold pBind at h
  cases hps : p xs with
  | none => rw [hps] at h; exact absurd h (by simp)
  | some ar =>
    obtain ⟨a, s⟩ := ar
    rw [hps] at h
    have h1 := hp xs a s hps
    have h2 := hf a s v r h
    omega

theorem rdBytes_len : ∀ (n : Nat), RdLen (rdBytes n) n := by
  intro n
  induction n with
  | zero => intro xs v r h; simp_all [rdBytes]
  | succ m ih =>
    intro xs v r h
    cases xs with
    | nil => simp [rdBytes] at h
    | cons b s =>
      simp only [rdBytes] at h
      cases hbs : rdBytes m s with
      | none => rw [hbs] at h; simp at h
      | some br =>
        obtain ⟨bs, rest⟩ := br
        rw [hbs] at h
        simp only [Option.some.injEq, Prod.mk.injEq] at h
        obtain ⟨hv, hr⟩ := h
        subst hr
        have := ih s bs rest hbs
        simp only [List.length_cons]
        omega

theorem rdU32_len : RdLen rdU32 4 := by
  intro xs v r h
  have := pBind_len (rdBytes_len 4) (fun bs => pPure_len (leVal bs)) xs v r h
  omega

theorem rdU64_len : RdLen rdU64 8 := by
  intro xs v r h
  have := pBind_len (rdBytes_len 8) (fun bs => pPure_len (leVal bs)) xs v r h
  omega

theorem rdHeader_len : RdLen rdHeader 36 := by
  intro xs v r hx
  have h : RdLen rdHeader (4 + (4 + (8 + (4 + (4 + (4 + (4 + (4 + 0)))))))) :=
    pBind_len rdU32_len (fun _ => pBind_len rdU32_len (fun _ =>
      pBind_len rdU64_len (fun _ => pBind_len rdU32_len (fun _ =>
        pBind_len rdU32_len (fun _ => pBind_len rdU32_len (fun _ =>
          pBind_len rdU32_len (fun _ => pBind_len rdU32_len (fun _ =>
            pPure_len _))))))))
  have := h xs v r hx
  omega

/-! ### Decode-of-encode lemmas -/

theorem rdBytes_bytes (l : List Nat) (r : List Nat) :
    rdBytes l.length (l ++ r) = some (l, r) := by
  induction l with
  | nil => simp [rdBytes]
  | cons b bs ih => simp [rdBytes, ih]

theorem leVal_u32bytes {n : Nat} (h : n < U32) : leVal (u32bytes n) = n := by
  simp only [u32bytes, leVal]
  unfold U32 at h
  omega

theorem leVal_u64bytes {n : Nat} (h : n < U64) : leVal (u64bytes n) = n := by
  simp only [u64bytes, leVal]
  unfold U64 at h
  omega

theorem pPure_enc (a : α) : RdEnc (pPure a) [] a := by
  intro r
  rfl

theorem pBind_enc {p : Rd α} {f : α → Rd β} {bA bB bs : List Nat} {a : α} {b : β}
    (hp : RdEnc p bA a) (hf : RdEnc (f a) bB b) (hbs : bs = bA ++ bB) :
    RdEnc (pBind p f) bs b := by
  intro r
  subst hbs
  unfold pBind
  rw [List.append_assoc, hp (bB ++ r)]
  exact hf r

theorem rdBytes_enc (l : List Nat) : RdEnc (rdBytes l.length) l l := by
  intro r
  exact rdBytes_bytes l r

theorem rdU32_enc {n : Nat} (h : n < U32) : RdEnc rdU32 (u32bytes n) n := by
  have base : RdEnc rdU32 (u32bytes n) (leVal (u32bytes n)) :=
    pBind_enc (rdBytes_enc (u32bytes n)) (pPure_enc (leVal (u32bytes n)))
      (List.append_nil _).symm
  rw [leVal_u32bytes h] at base
  exact base

theorem rdU64_enc {n : Nat} (h : n < U64) : RdEnc rdU64 (u64bytes n) n := by
  have base : RdEnc rdU64 (u64bytes n) (leVal (u64bytes n)) :=
    pBind_enc (rdBytes_enc (u64bytes n)) (pPure_enc (leVal (u64bytes n)))
      (List.append_nil _).symm
  rw [leVal_u64bytes h] at base
  exact base

theorem rdVec4_enc {v : Vec4} (h : WFVec4 v) : RdEnc rdVec4 (vec4bytes v) v := by
  obtain ⟨hx, hy, hz, hw⟩ := h
  exact pBind_enc (rdU32_enc hx)
    (pBind_enc (rdU32_enc hy)
      (pBind_enc (rdU32_enc hz)
        (pBind_enc (rdU32_enc hw) (pPure_enc _) (List.append_nil _).symm)
        rfl)
      rfl)
    (by simp [vec4bytes, List.append_assoc])

theorem rdVec3_enc {v : Vec3} (h : WFVec3 v) : RdEnc rdVec3 (vec3bytes v) v := by
  obtain ⟨hx, hy, hz⟩ := h
  exact pBind_enc (rdU32_enc hx)
    (pBind_enc (rdU32_enc hy)
      (pBind_enc (rdU32_enc hz) (pPure_enc _) (List.append_nil _).symm)
      rfl)
    (by simp [vec3bytes, List.append_assoc])

theorem rdVertex_enc {v : Vertex} (h : WFVertex v) : RdEnc rdVertex (vertexBytes v) v := by
  obtain ⟨hp, hn, ht, hb, huv, hluv⟩ := h
  exact pBind_enc (rdVec4_enc hp)
    (pBind_enc (rdVec4_enc hn)
      (pBind_enc (rdVec4_enc ht)
        (pBind_enc (rdVec4_enc hb)
          (pBind_enc (rdVec4_enc huv)
            (pBind_enc (rdVec4_enc hluv) (pPure_enc _) (List.append_nil _).symm)
            rfl)
          rfl)
        rfl)
      rfl)
    (by simp [vertexBytes, List.append_assoc])

theorem rdSubMesh_enc {sm : SubMesh} (h : WFSubMesh sm) :
    RdEnc rdSubMesh (subMeshBytes sm) sm := by
  obtain ⟨hnl, _hnb, hmi, hic, hbv, hbi, hvc, hmax, hmin⟩ := h
  exact pBind_enc (rdU32_enc hnl)
    (pBind_enc (rdBytes_enc sm.name)
      (pBind_enc (rdU32_enc hmi)
        (pBind_enc (rdU32_enc hic)
          (pBind_enc (rdU32_enc hbv)
            (pBind_enc (rdU32_enc hbi)
              (pBind_enc (rdU32_enc hvc)
                (pBind_enc (rdVec3_enc hmax)
                  (pBind_enc (rdVec3_enc hmin) (pPure_enc _) (List.append_nil _).symm)
                  rfl)
                rfl)
              rfl)
            rfl)
          rfl)
        rfl)
      rfl)
    (by simp [subMeshBytes, List.append_assoc])

theorem rdList_enc {enc : α → List Nat} {rd : Rd α} (l : List α)
    (h : ∀ a ∈ l, RdEnc rd (enc a) a) :
    RdEnc (rdList rd l.length) (l.flatMap enc) l := by
  induction l with
  | nil => intro r; simp [rdList, pPure]
  | cons a as ih =>
    have t1 : RdEnc rd (enc a) a := h a (by simp)
    have t2 : RdEnc (rdList rd as.length) (as.flatMap enc) as :=
      ih (fun x hx => h x (by simp [hx]))
    exact pBind_enc t1
      (pBind_enc t2 (pPure_enc _) (List.append_nil _).symm)
      (by simp)

/-- The header bytes written by `save_lightmap_cache`. -/
def headerBytes (st : MeshState) (h : Nat) : List Nat :=
  u32bytes LIGHTMAP_CACHE_MAGIC ++ u32bytes LIGHTMAP_CACHE_VERSION ++ u64bytes h
    ++ u32bytes st.m_vertices.length ++ u32bytes st.m_indices.length
    ++ u32bytes st.m_sub_meshes.length
    ++ u32bytes st.m_lightmap_width ++ u32bytes st.m_lightmap_height

/-- The header record produced by decoding a freshly saved cache. -/
def headerOf (st : MeshState) (h : Nat) : CacheHeader :=
  ⟨LIGHTMAP_CACHE_MAGIC, LIGHTMAP_CACHE_VERSION, h, st.m_vertices.length,
    st.m_indices.length, st.m_sub_meshes.length, st.m_lightmap_width, st.m_lightmap_height⟩

theorem magic_lt : LIGHTMAP_CACHE_MAGIC < U32 := by decide

theorem version_lt : LIGHTMAP_CACHE_VERSION < U32 := by decide

theorem rdHeader_enc {st : MeshState} {h : Nat} (hh : h < U64)
    (hvl : st.m_vertices.length < U32) (hil : st.m_indices.length < U32)
    (hsl : st.m_sub_meshes.length < U32) (hw : st.m_lightmap_width < U32)
    (hht : st.m_lightmap_height < U32) :
    RdEnc rdHeader (headerBytes st h) (headerOf st h) :=
  pBind_enc (rdU32_enc magic_lt)
    (pBind_enc (rdU32_enc version_lt)
      (pBind_enc (rdU64_enc hh)
        (pBind_enc (rdU32_enc hvl)
          (pBind_enc (rdU32_enc hil)
            (pBind_enc (rdU32_enc hsl)
              (pBind_enc (rdU32_enc hw)
                (pBind_enc (rdU32_enc hht) (pPure_enc _) (List.append_nil _).symm)
                rfl)
              rfl)
            rfl)
          rfl)
        rfl)
      rfl)
    (by simp [headerBytes, List.append_assoc])

/-- `save_lightmap_cache` is the header bytes followed by the three data
sections. -/
theorem save_split (st : MeshState) (h : Nat) (extra : List Nat) :
    save_lightmap_cache st h ++ extra =
      headerBytes st h
        ++ (st.m_vertices.flatMap vertexBytes
          ++ (st.m_indices.flatMap u32bytes
            ++ (st.m_sub_meshes.flatMap subMeshBytes ++ extra))) := by
  simp [save_lightmap_cache, headerBytes, List.append_assoc]

/-- Decoding the body of a freshly saved cache returns the saved
geometry and leaves the trailing bytes unread. -/
theorem parse_body_save (st : MeshState) (h : Nat) (hWF : WFMesh st) (extra : List Nat) :
    parse_body (headerOf st h)
        (st.m_vertices.flatMap vertexBytes
          ++ (st.m_indices.flatMap u32bytes
            ++ (st.m_sub_meshes.flatMap subMeshBytes ++ extra))) =
      .ok (⟨st.m_vertices, st.m_indices, st.m_sub_meshes, h,
        st.m_lightmap_width, st.m_lightmap_height⟩, extra) := by
  obtain ⟨hv, hi, hsm, _⟩ := hWF
  have hverts : RdEnc (rdList rdVertex st.m_vertices.length)
      (st.m_vertices.flatMap vertexBytes) st.m_vertices :=
    rdList_enc _ (fun v hv' => rdVertex_enc (hv v hv'))
  have hidx : RdEnc (rdList rdU32 st.m_indices.length)
      (st.m_indices.flatMap u32bytes) st.m_indices :=
    rdList_enc _ (fun i hi' => rdU32_enc (hi i hi'))
  have hsms : RdEnc (rdList rdSubMesh st.m_sub_meshes.length)
      (st.m_sub_meshes.flatMap subMeshBytes) st.m_sub_meshes :=
    rdList_enc _ (fun sm hs' => rdSubMesh_enc (hsm sm hs'))
  have hverts' : ∀ r : List Nat,
      rdList rdVertex st.m_vertices.length (st.m_vertices.flatMap vertexBytes ++ r) =
        some (st.m_vertices, r) := hverts
  have hidx' : ∀ r : List Nat,
      rdList rdU32 st.m_indices.length (st.m_indices.flatMap u32bytes ++ r) =
        some (st.m_indices, r) := hidx
  have hsms' : ∀ r : List Nat,
      rdList rdSubMesh st.m_sub_meshes.length (st.m_sub_meshes.flatMap subMeshBytes ++ r) =
        some (st.m_sub_meshes, r) := hsms
  unfold parse_body
  simp only [headerOf, hverts', hidx', hsms']

/-- Round trip with arbitrary trailing bytes: decoding
`save_lightmap_cache st h ++ extra` with expected hash `h` succeeds with
exactly the saved snapshot and leaves `extra` unread. -/
theorem parse_cache_save (st : MeshState) (h : Nat) (hWF : WFMesh st) (hh : h < U64)
    (extra : List Nat) :
    parse_cache (save_lightmap_cache st h ++ extra) h =
      .ok (⟨st.m_vertices, st.m_indices, st.m_sub_meshes, h,
        st.m_lightmap_width, st.m_lightmap_height⟩, extra) := by
  obtain ⟨hv, hi, hsm, hvl, hil, hsl, hw, hht⟩ := hWF
  have hhdr := rdHeader_enc hh (hvl.trans (by decide)) (hil.trans (by decide)) hsl hw hht
  rw [save_split]
  unfold parse_cache
  rw [hhdr]
  have hbody := parse_body_save st h ⟨hv, hi, hsm, hvl, hil, hsl, hw, hht⟩ extra
  simp only [headerOf, ne_eq, not_true_eq_false, if_false, ite_false]
  exact hbody

/-- Body parsing is extension-stable. -/
theorem parse_body_ext (hdr : CacheHeader) (xs : List Nat) (rec : CacheRecord)
    (rem ys : List Nat) (h : parse_body hdr xs = .ok (rec, rem)) :
    parse_body hdr (xs ++ ys) = .ok (rec, rem ++ ys) := by
  unfold parse_body at h ⊢
  cases h1 : rdList rdVertex hdr.vertex_count xs with
  | none => simp only [h1] at h; exact absurd h (by simp)
  | some p1 =>
  obtain ⟨vs, s1⟩ := p1
  simp only [h1] at h
  cases h2 : rdList rdU32 hdr.index_count s1 with
  | none => simp only [h2] at h; exact absurd h (by simp)
  | some p2 =>
  obtain ⟨is, s2⟩ := p2
  simp only [h2] at h
  cases h3 : rdList rdSubMesh hdr.submesh_count s2 with
  | none => simp only [h3] at h; exact absurd h (by simp)
  | some p3 =>
  obtain ⟨sms, s3⟩ := p3
  simp only [h3, Except.ok.injEq, Prod.mk.injEq] at h
  obtain ⟨hrec, hrem⟩ := h
  subst hrem
  have e1 := rdList_ext rdVertex_ext hdr.vertex_count xs vs s1 h1 ys
  have e2 := rdList_ext rdU32_ext hdr.index_count s1 is s2 h2 ys
  have e3 := rdList_ext rdSubMesh_ext hdr.submesh_count s2 sms s3 h3 ys
  simp only [e1, e2, e3, hrec]

/-- Body parsing fails only with a data-section truncation. -/
theorem parse_body_error (hdr : CacheHeader) (s : List Nat) (e : CacheError)
    (h : parse_body hdr s = .error e) : e = .dataTruncated := by
  unfold parse_body at h
  cases h1 : rdList rdVertex hdr.vertex_count s with
  | none => simp only [h1, Except.error.injEq] at h; exact h.symm
  | some p1 =>
  obtain ⟨vs, s1⟩ := p1
  simp only [h1] at h
  cases h2 : rdList rdU32 hdr.index_count s1 with
  | none => simp only [h2, Except.error.injEq] at h; exact h.symm
  | some p2 =>
  obtain ⟨is, s2⟩ := p2
  simp only [h2] at h
  cases h3 : rdList rdSubMesh hdr.submesh_count s2 with
  | none => simp only [h3, Except.error.injEq] at h; exact h.symm
  | some p3 =>
  obtain ⟨sms, s3⟩ := p3
  simp only [h3] at h
  exact absurd h (by simp)

/-- Whole-record parsing is extension-stable. -/
theorem parse_cache_ext (data : List Nat) (eh : Nat) (rec : CacheRecord)
    (rem ys : List Nat) (h : parse_cache data eh = .ok (rec, rem)) :
    parse_cache (data ++ ys) eh = .ok (rec, rem ++ ys) := by
  unfold parse_cache at h ⊢
  cases hh : rdHeader data with
  | none => simp only [hh] at h; exact absurd h (by simp)
  | some p =>
  obtain ⟨hdr, s⟩ := p
  simp only [hh] at h
  have e := rdHeader_ext data (hdr, s).1 (hdr, s).2 hh ys
  simp only [e]
  by_cases c1 : hdr.magic ≠ LIGHTMAP_CACHE_MAGIC
  · rw [if_pos c1] at h; exact absurd h (by simp)
  · rw [if_neg c1] at h
    rw [if_neg c1]
    by_cases c2 : hdr.version ≠ LIGHTMAP_CACHE_VERSION
    · rw [if_pos c2] at h; exact absurd h (by simp)
    · rw [if_neg c2] at h
      rw [if_neg c2]
      by_cases c3 : hdr.stored_hash ≠ eh
      · rw [if_pos c3] at h; exact absurd h (by simp)
      · rw [if_neg c3] at h
        rw [if_neg c3]
        exact parse_body_ext hdr s rec rem ys h

/-- A strict prefix of a freshly saved record can never parse
successfully: the full record consumes every byte, so a successful
prefix parse would contradict extension-stability. -/
theorem parse_cache_never_ok_on_cut (st : MeshState) (h : Nat) (hWF : WFMesh st) (hh : h < U64)
    (P Q : List Nat) (hPQ : save_lightmap_cache st h = P ++ Q) (hQ : Q ≠ []) :
    ∀ rec rem, parse_cache P h ≠ .ok (rec, rem) := by
  intro rec rem hok
  have hext := parse_cache_ext P h rec rem Q hok
  rw [← hPQ] at hext
  have hsave := parse_cache_save st h hWF hh []
  rw [List.append_nil] at hsave
  rw [hsave] at hext
  simp only [Except.ok.injEq, Prod.mk.injEq] at hext
  have h2 := hext.2
  have hQnil : Q = [] := by
    cases rem with
    | nil => simpa using h2.symm
    | cons a t => exact absurd h2.symm (by simp)
  exact hQ hQnil

/-- A strict prefix of a freshly saved record always fails with a
truncation-class error. -/
theorem parse_cache_cut_short (st : MeshState) (h : Nat) (hWF : WFMesh st) (hh : h < U64)
    (P Q : List Nat) (hPQ : save_lightmap_cache st h = P ++ Q) (hQ : Q ≠ []) :
    ∃ e : CacheError, parse_cache P h = .error e ∧ e.isTruncation = true := by
  by_cases hlen : P.length < 36
  · have hnone : rdHeader P = none := by
      cases hH : rdHeader P with
      | none => rfl
      | some p =>
        have := rdHeader_len P p.1 p.2 (by rw [hH])
        omega
    refine ⟨.headerTruncated, ?_, rfl⟩
    unfold parse_cache
    rw [hnone]
  · have hlen36 : (headerBytes st h).length = 36 := by
      simp [headerBytes, u32bytes, u64bytes]
    obtain ⟨hv, hi, hsm, hvl, hil, hsl, hw, hht⟩ := hWF
    have hsp := save_split st h []
    rw [List.append_nil] at hsp
    have hPQ2 : P ++ Q = headerBytes st h
        ++ (st.m_vertices.flatMap vertexBytes
          ++ (st.m_indices.flatMap u32bytes
            ++ (st.m_sub_meshes.flatMap subMeshBytes ++ []))) := by
      rw [← hsp, ← hPQ]
    have hP36 : 36 ≤ P.length := by omega
    have htake : P.take 36 = headerBytes st h := by
      have t1 : (P ++ Q).take 36 = P.take 36 := List.take_append_of_le_length hP36
      have t2 : (headerBytes st h
          ++ (st.m_vertices.flatMap vertexBytes
            ++ (st.m_indices.flatMap u32bytes
              ++ (st.m_sub_meshes.flatMap subMeshBytes ++ [])))).take 36 =
          headerBytes st h := by
        have t3 : (headerBytes st h
            ++ (st.m_vertices.flatMap vertexBytes
              ++ (st.m_indices.flatMap u32bytes
                ++ (st.m_sub_meshes.flatMap subMeshBytes ++ [])))).take 36 =
            (headerBytes st h).take 36 :=
          List.take_append_of_le_length (by omega)
        rw [t3, ← hlen36, List.take_length]
      rw [hPQ2] at t1
      rw [t2] at t1
      exact t1.symm
    have hPdecomp : P = headerBytes st h ++ P.drop 36 := by
      conv_lhs => rw [← List.take_append_drop 36 P]
      rw [htake]
    have hhdr := rdHeader_enc hh (hvl.trans (by decide)) (hil.trans (by decide)) hsl hw hht
    have hhd : rdHeader P = some (headerOf st h, P.drop 36) := by
      rw [hPdecomp]
      exact hhdr _
    have heval : parse_cache P h = parse_body (headerOf st h) (P.drop 36) := by
      unfold parse_cache
      rw [hhd]
      simp [headerOf]
    cases hb : parse_body (headerOf st h) (P.drop 36) with
    | error e =>
      have he : e = .dataTruncated := parse_body_error _ _ _ hb
      exact ⟨.dataTruncated, by rw [heval, hb, he], rfl⟩
    | ok v =>
      have hok : parse_cache P h = .ok (v.1, v.2) := by rw [heval, hb]
      exact absurd hok
        (parse_cache_never_ok_on_cut st h ⟨hv, hi, hsm, hvl, hil, hsl, hw, hht⟩ hh P Q hPQ hQ v.1 v.2)

/-- Every parse failure leaves the mesh untouched: the code assigns
`m_*` fields only after the last validation. -/
theorem load_fail_unchanged (st0 : MeshState) (data : List Nat) (eh : Nat) (e : CacheError)
    (h : parse_cache data eh = .error e) : load_lightmap_cache st0 data eh = (false, st0) := by
  unfold load_lightmap_cache
  rw [h]

/-- A successful parse is adopted wholesale. -/
theorem load_ok (st0 : MeshState) (data : List Nat) (eh : Nat) (rec : CacheRecord)
    (rem : List Nat) (h : parse_cache data eh = .ok (rec, rem)) :
    load_lightmap_cache st0 data eh =
      (true,
        { st0 with
          m_vertices := rec.vertices
          m_indices := rec.indices
          m_sub_meshes := rec.submeshes
          m_lightmap_width := rec.width
          m_lightmap_height := rec.height
          m_has_lightmap_uvs := true }) := by
  unfold load_lightmap_cache
  rw [h]

/-! ### Constructor orchestration (`Mesh::Mesh`, lightmap branch) -/

/-- The lightmap block of the `Mesh::Mesh` constructor (run when
`generate_lightmap_uv` is requested): compute the pre-atlas hash, try
the cache (`cache_data = none` models an absent/unopenable file), on
miss run atlas generation, and on generation success write the cache.
The constructor has no failure channel: it always yields a final mesh
state; the second component is the cache byte stream written, if any. -/
def mesh_lightmap_pipeline (fdiv : Nat → Nat → Nat) (cache_data : Option (List Nat))
    (atlas : Atlas) (st : MeshState) : MeshState × Option (List Nat) :=
  let mesh_hash := compute_mesh_hash st
  let loaded :=
    match cache_data with
    | none => (false, st)
    | some data => load_lightmap_cache st data mesh_hash
  if loaded.1 then (loaded.2, none)
  else
    let generated := generate_lightmap_uvs fdiv atlas st
    if generated.1 then (generated.2, some (save_lightmap_cache generated.2 mesh_hash))
    else (generated.2, none)

/-! ### Consolidation lemmas -/

/-- Total index count claimed by a submesh list. -/
def sumIndexCounts (l : List SubMesh) : Nat := (l.map (fun sm => sm.index_count)).sum

theorem rebase_length (tv : Nat) : ∀ (cur : Nat) (l : List SubMesh),
    (rebaseSubMeshes tv cur l).length = l.length := by
  intro cur l
  induction l generalizing cur with
  | nil => rfl
  | cons sm rest ih => simp [rebaseSubMeshes, ih]

theorem rebase_sum (tv : Nat) : ∀ (cur : Nat) (l : List SubMesh),
    sumIndexCounts (rebaseSubMeshes tv cur l) = sumIndexCounts l := by
  intro cur l
  induction l generalizing cur with
  | nil => rfl
  | cons sm rest ih =>
    simp only [rebaseSubMeshes, sumIndexCounts, List.map_cons, List.sum_cons]
    have hr := ih (cur + sm.index_count)
    simp only [sumIndexCounts] at hr
    rw [hr]

theorem rebase_getD (tv : Nat) (dsm : SubMesh) : ∀ (l : List SubMesh) (cur i : Nat),
    i < l.length →
    (rebaseSubMeshes tv cur l).getD i dsm =
      { l.getD i dsm with
        base_index := cur + sumIndexCounts (l.take i)
        base_vertex := 0
        vertex_count := tv } := by
  intro l
  induction l with
  | nil => intro cur i hi; simp at hi
  | cons sm rest ih =>
    intro cur i hi
    cases i with
    | zero => simp [rebaseSubMeshes, sumIndexCounts]
    | succ j =>
      have hj : j < rest.length := by simpa using hi
      simp only [rebaseSubMeshes, List.getD_cons_succ, List.take_succ_cons]
      rw [ih (cur + sm.index_count) j hj]
      simp only [sumIndexCounts, List.map_cons, List.sum_cons]
      rw [Nat.add_assoc]

/-- Inversion of a successful consolidation: the success conditions all
hold and the result state is the explicit consolidated state. -/
theorem generate_inv {fdiv : Nat → Nat → Nat} {atlas : Atlas} {st : MeshState}
    {res : MeshState} (h : generate_lightmap_uvs fdiv atlas st = (true, res)) :
    st.m_vertices ≠ [] ∧ st.m_indices ≠ [] ∧ atlas.addMeshOk = true
      ∧ atlas.width ≠ 0 ∧ atlas.height ≠ 0 ∧ atlas.meshes.length = 1
      ∧ res =
        { st with
          m_vertices := (atlas.meshes.getD 0 emptyXMesh).vertexArray.map (fun xv =>
            { st.m_vertices.getD xv.xref zeroVertex with
              lightmap_tex_coord :=
                ⟨fdiv xv.uv0 atlas.width, fdiv xv.uv1 atlas.height, 0, 0⟩ })
          m_indices := (atlas.meshes.getD 0 emptyXMesh).indexArray
          m_sub_meshes := rebaseSubMeshes
            ((atlas.meshes.getD 0 emptyXMesh).vertexArray.map (fun xv =>
              { st.m_vertices.getD xv.xref zeroVertex with
                lightmap_tex_coord :=
                  ⟨fdiv xv.uv0 atlas.width, fdiv xv.uv1 atlas.height, 0, 0⟩ })).length
            0 st.m_sub_meshes
          m_lightmap_width := atlas.width
          m_lightmap_height := atlas.height
          m_has_lightmap_uvs := true } := by
  unfold generate_lightmap_uvs at h
  by_cases c1 : st.m_vertices.isEmpty || st.m_indices.isEmpty
  · rw [if_pos c1] at h; simp at h
  · rw [if_neg c1] at h
    by_cases c2 : !atlas.addMeshOk
    · rw [if_pos c2] at h; simp at h
    · rw [if_neg c2] at h
      by_cases c3 : atlas.width = 0 || atlas.height = 0
      · rw [if_pos c3] at h; simp at h
      · rw [if_neg c3] at h
        by_cases c4 : atlas.meshes.length ≠ 1
        · rw [if_pos c4] at h; simp at h
        · rw [if_neg c4] at h
          simp only [Prod.mk.injEq, true_and] at h
          simp only [Bool.or_eq_true, List.isEmpty_iff, not_or] at c1
          simp only [Bool.not_eq_true', Bool.not_eq_false] at c2
          simp only [Bool.or_eq_true, decide_eq_true_eq, not_or] at c3
          simp only [ne_eq, Decidable.not_not] at c4
          exact ⟨c1.1, c1.2, c2, c3.1, c3.2, c4, h.symm⟩

/-- The empty-geometry failure path: no mutation. -/
theorem generate_empty (fdiv : Nat → Nat → Nat) (atlas : Atlas) (st : MeshState)
    (h : st.m_vertices = [] ∨ st.m_indices = []) :
    generate_lightmap_uvs fdiv atlas st = (false, st) := by
  unfold generate_lightmap_uvs
  have : (st.m_vertices.isEmpty || st.m_indices.isEmpty) = true := by
    rcases h with h | h <;> simp [h]
  rw [if_pos this]

/-- The zero-atlas-dimension failure path: no mutation. -/
theorem generate_zero_dims (fdiv : Nat → Nat → Nat) (atlas : Atlas) (st : MeshState)
    (hv : st.m_vertices ≠ []) (hi : st.m_indices ≠ []) (hok : atlas.addMeshOk = true)
    (hwh : atlas.width = 0 ∨ atlas.height = 0) :
    generate_lightmap_uvs fdiv atlas st = (false, st) := by
  unfold generate_lightmap_uvs
  rw [if_neg (by simp [hv, hi])]
  rw [if_neg (by simp [hok])]
  rw [if_pos (by rcases hwh with h | h <;> simp [h])]

/-- The unexpected-mesh-count failure path: the call fails, the
geometry arrays are untouched, but the atlas dimension fields have
already been overwritten. -/
theorem generate_bad_count (fdiv : Nat → Nat → Nat) (atlas : Atlas) (st : MeshState)
    (hv : st.m_vertices ≠ []) (hi : st.m_indices ≠ []) (hok : atlas.addMeshOk = true)
    (hw : atlas.width ≠ 0) (hh : atlas.height ≠ 0) (hm : atlas.meshes.length ≠ 1) :
    generate_lightmap_uvs fdiv atlas st =
      (false, { st with m_lightmap_width := atlas.width, m_lightmap_height := atlas.height }) := by
  unfold generate_lightmap_uvs
  rw [if_neg (by simp [hv, hi])]
  rw [if_neg (by simp [hok])]
  rw [if_neg (by simp [hw, hh])]
  rw [if_pos hm]

/-! ### Example data for witnesses -/

/-- A concrete well-formed vertex. -/
def exVertex : Vertex :=
  ⟨⟨1, 2, 3, 4⟩, ⟨5, 6, 7, 8⟩, ⟨9, 10, 11, 12⟩, ⟨13, 14, 15, 16⟩, ⟨17, 18, 19, 20⟩,
    ⟨0, 0, 0, 0⟩⟩

/-- Same position as `exVertex`, different normal/tangent/UV data. -/
def exVertexB : Vertex :=
  ⟨⟨1, 2, 3, 4⟩, ⟨50, 60, 70, 80⟩, ⟨90, 100, 110, 120⟩, ⟨130, 140, 150, 160⟩,
    ⟨170, 180, 190, 200⟩, ⟨21, 22, 0, 0⟩⟩

/-- A concrete submesh named "M1" covering three indices. -/
def exSubMesh : SubMesh := ⟨[77, 49], 0, 3, 0, 0, 3, ⟨1, 2, 3⟩, ⟨4, 5, 6⟩⟩

/-- A concrete consolidated mesh snapshot: one triangle, one submesh,
16x32 atlas. -/
def exMesh : MeshState := ⟨[exVertex, exVertex, exVertex], [0, 1, 2], [exSubMesh], 16, 32, true⟩

/-- `exMesh` with the same positions, indices, and submesh index ranges
but different normals/tangents/UVs. -/
def exMeshB : MeshState :=
  ⟨[exVertexB, exVertexB, exVertexB], [0, 1, 2], [exSubMesh], 16, 32, true⟩

/-! ### Claims -/

/-- C1. Cache codec round-trip: for every well-formed consolidated
snapshot `st`, 64-bit hash `h`, and the atlas dimensions stored in
`st`, decoding the bytes written by `save_lightmap_cache` with expected
hash `h` succeeds, reproduces every vertex, index, and submesh field
exactly, together with `h` and the atlas dimensions, and a
`load_lightmap_cache` against any mesh adopts exactly that snapshot. -/
theorem c1_codec_roundtrip (st : MeshState) (h : Nat) (hWF : WFMesh st) (hh : h < U64) :
    parse_cache (save_lightmap_cache st h) h =
      .ok (⟨st.m_vertices, st.m_indices, st.m_sub_meshes, h,
        st.m_lightmap_width, st.m_lightmap_height⟩, [])
    ∧ ∀ st0 : MeshState, load_lightmap_cache st0 (save_lightmap_cache st h) h =
      (true,
        { st0 with
          m_vertices := st.m_vertices
          m_indices := st.m_indices
          m_sub_meshes := st.m_sub_meshes
          m_lightmap_width := st.m_lightmap_width
          m_lightmap_height := st.m_lightmap_height
          m_has_lightmap_uvs := true }) := by
  have hp := parse_cache_save st h hWF hh []
  rw [List.append_nil] at hp
  exact ⟨hp, fun st0 => load_ok st0 _ h _ [] hp⟩

/-- Witness for C1 at a concrete snapshot and hash. -/
theorem c1_codec_roundtrip_witness :
    (WFMesh exMesh ∧ 99 < U64)
    ∧ parse_cache (save_lightmap_cache exMesh 99) 99 =
        .ok (⟨exMesh.m_vertices, exMesh.m_indices, exMesh.m_sub_meshes, 99,
          exMesh.m_lightmap_width, exMesh.m_lightmap_height⟩, []) :=
  ⟨⟨by decide, by decide⟩, (c1_codec_roundtrip exMesh 99 (by decide) (by decide)).1⟩

/-- C2. The geometry hash is exactly the FNV-1a algorithm the
specification describes: offset basis 14695981039346656037 and prime
1099511628211 folded over the raw bytes of each vertex position in
order, then over each index's raw bytes, then over each submesh's
`index_count` and `base_index` fields; as a pure function of the
snapshot, identical inputs always produce the identical 64-bit value. -/
theorem c2_hash_algorithm (st : MeshState) : compute_mesh_hash st = hash_spec st := by
  unfold compute_mesh_hash hash_spec fnvBytes
  rw [List.foldl_map]
  rw [List.foldl_append, List.foldl_flatten, List.foldl_flatten, List.foldl_map, List.foldl_map]

/-- C8. Hash input noninterference: two snapshots with identical vertex
positions, identical indices, and identical submesh
(`index_count`, `base_index`) pairs hash identically, however their
normals, tangents, bitangents, UVs, lightmap UVs, or other submesh
fields differ. -/
theorem c8_hash_noninterference (s1 s2 : MeshState)
    (hp : s1.m_vertices.map (fun v => v.position) = s2.m_vertices.map (fun v => v.position))
    (hi : s1.m_indices = s2.m_indices)
    (hs : s1.m_sub_meshes.map (fun sm => (sm.index_count, sm.base_index)) =
      s2.m_sub_meshes.map (fun sm => (sm.index_count, sm.base_index))) :
    compute_mesh_hash s1 = compute_mesh_hash s2 := by
  rw [compute_mesh_hash_parts, compute_mesh_hash_parts, hp, hi, hs]

/-- Witness for C8: `exMesh` and `exMeshB` differ in normals, tangents,
bitangents, UVs, and lightmap UVs but hash identically. -/
theorem c8_hash_noninterference_witness :
    (exMesh.m_vertices.map (fun v => v.position) =
        exMeshB.m_vertices.map (fun v => v.position)
      ∧ exMesh.m_indices = exMeshB.m_indices
      ∧ exMesh.m_sub_meshes.map (fun sm => (sm.index_count, sm.base_index)) =
        exMeshB.m_sub_meshes.map (fun sm => (sm.index_count, sm.base_index))
      ∧ exMesh.m_vertices ≠ exMeshB.m_vertices)
    ∧ compute_mesh_hash exMesh = compute_mesh_hash exMeshB :=
  ⟨⟨by decide, by decide, by decide, by decide⟩,
    c8_hash_noninterference exMesh exMeshB (by decide) (by decide) (by decide)⟩

/-- C10. Decode ignores trailing bytes: a valid record followed by any
garbage still decodes successfully to exactly the record's geometry;
the loader adopts it and never detects the trailing bytes. -/
theorem c10_trailing_bytes_ignored (st : MeshState) (h : Nat) (extra : List Nat)
    (hWF : WFMesh st) (hh : h < U64) :
    parse_cache (save_lightmap_cache st h ++ extra) h =
      .ok (⟨st.m_vertices, st.m_indices, st.m_sub_meshes, h,
        st.m_lightmap_width, st.m_lightmap_height⟩, extra)
    ∧ ∀ st0 : MeshState, load_lightmap_cache st0 (save_lightmap_cache st h ++ extra) h =
      (true,
        { st0 with
          m_vertices := st.m_vertices
          m_indices := st.m_indices
          m_sub_meshes := st.m_sub_meshes
          m_lightmap_width := st.m_lightmap_width
          m_lightmap_height := st.m_lightmap_height
          m_has_lightmap_uvs := true }) := by
  have hp := parse_cache_save st h hWF hh extra
  exact ⟨hp, fun st0 => load_ok st0 _ h _ extra hp⟩

/-- Witness for C10: the saved record for `exMesh` followed by three
garbage bytes still decodes to exactly the saved geometry. -/
theorem c10_trailing_bytes_ignored_witness :
    (WFMesh exMesh ∧ 99 < U64)
    ∧ parse_cache (save_lightmap_cache exMesh 99 ++ [222, 173, 190]) 99 =
        .ok (⟨exMesh.m_vertices, exMesh.m_indices, exMesh.m_sub_meshes, 99,
          exMesh.m_lightmap_width, exMesh.m_lightmap_height⟩, [222, 173, 190]) :=
  ⟨⟨by decide, by decide⟩,
    (c10_trailing_bytes_ignored exMesh 99 [222, 173, 190] (by decide) (by decide)).1⟩

/-- C3. Decode validation order: once the fixed header is read,
`load_lightmap_cache` fails with `InvalidFormat` when the magic differs,
otherwise with `VersionMismatch` when the version differs, otherwise
with `StaleCache` when the stored hash differs from the caller's
expected hash; each failure adopts nothing, and a successful decode
implies all three checks passed. -/
theorem c3_decode_validation (data : List Nat) (eh : Nat) (hdr : CacheHeader)
    (s : List Nat) (hH : rdHeader data = some (hdr, s)) :
    (hdr.magic ≠ LIGHTMAP_CACHE_MAGIC →
      parse_cache data eh = .error .invalidFormat
        ∧ ∀ st0 : MeshState, load_lightmap_cache st0 data eh = (false, st0))
    ∧ (hdr.magic = LIGHTMAP_CACHE_MAGIC → hdr.version ≠ LIGHTMAP_CACHE_VERSION →
      parse_cache data eh = .error .versionMismatch
        ∧ ∀ st0 : MeshState, load_lightmap_cache st0 data eh = (false, st0))
    ∧ (hdr.magic = LIGHTMAP_CACHE_MAGIC → hdr.version = LIGHTMAP_CACHE_VERSION →
        hdr.stored_hash ≠ eh →
      parse_cache data eh = .error .staleCache
        ∧ ∀ st0 : MeshState, load_lightmap_cache st0 data eh = (false, st0))
    ∧ (∀ (rec : CacheRecord) (rem : List Nat), parse_cache data eh = .ok (rec, rem) →
        hdr.magic = LIGHTMAP_CACHE_MAGIC ∧ hdr.version = LIGHTMAP_CACHE_VERSION
          ∧ hdr.stored_hash = eh) := by
  have heval : parse_cache data eh =
      (if hdr.magic ≠ LIGHTMAP_CACHE_MAGIC then .error .invalidFormat
       else if hdr.version ≠ LIGHTMAP_CACHE_VERSION then .error .versionMismatch
       else if hdr.stored_hash ≠ eh then .error .staleCache
       else parse_body hdr s) := by
    unfold parse_cache
    rw [hH]
  refine ⟨?_, ?_, ?_, ?_⟩
  · intro hm
    have hp : parse_cache data eh = .error .invalidFormat := by
      rw [heval, if_pos hm]
    exact ⟨hp, fun st0 => load_fail_unchanged st0 data eh _ hp⟩
  · intro hm hv
    have hp : parse_cache data eh = .error .versionMismatch := by
      rw [heval, if_neg (not_not_intro hm), if_pos hv]
    exact ⟨hp, fun st0 => load_fail_unchanged st0 data eh _ hp⟩
  · intro hm hv hs
    have hp : parse_cache data eh = .error .staleCache := by
      rw [heval, if_neg (not_not_intro hm), if_neg (not_not_intro hv), if_pos hs]
    exact ⟨hp, fun st0 => load_fail_unchanged st0 data eh _ hp⟩
  · intro rec rem hok
    have hm : hdr.magic = LIGHTMAP_CACHE_MAGIC := by
      by_contra hc
      rw [heval, if_pos hc] at hok
      exact absurd hok (by simp)
    have hv : hdr.version = LIGHTMAP_CACHE_VERSION := by
      by_contra hc
      rw [heval, if_neg (not_not_intro hm), if_pos hc] at hok
      exact absurd hok (by simp)
    have hs : hdr.stored_hash = eh := by
      by_contra hc
      rw [heval, if_neg (not_not_intro hm), if_neg (not_not_intro hv), if_pos hc] at hok
      exact absurd hok (by simp)
    exact ⟨hm, hv, hs⟩

/-- A 36-byte header whose magic field is wrong. -/
def exBadMagic : List Nat :=
  u32bytes 7 ++ u32bytes 1 ++ u64bytes 0 ++ u32bytes 0 ++ u32bytes 0 ++ u32bytes 0
    ++ u32bytes 0 ++ u32bytes 0

/-- The header record decoded from `exBadMagic`. -/
def exBadHdr : CacheHeader := ⟨7, 1, 0, 0, 0, 0, 0, 0⟩

/-- Witness for C3 on a concrete bad-magic stream. -/
theorem c3_decode_validation_witness :
    rdHeader exBadMagic = some (exBadHdr, [])
    ∧ ((exBadHdr.magic ≠ LIGHTMAP_CACHE_MAGIC →
        parse_cache exBadMagic 0 = .error .invalidFormat
          ∧ ∀ st0 : MeshState, load_lightmap_cache st0 exBadMagic 0 = (false, st0))
      ∧ (exBadHdr.magic = LIGHTMAP_CACHE_MAGIC →
          exBadHdr.version ≠ LIGHTMAP_CACHE_VERSION →
        parse_cache exBadMagic 0 = .error .versionMismatch
          ∧ ∀ st0 : MeshState, load_lightmap_cache st0 exBadMagic 0 = (false, st0))
      ∧ (exBadHdr.magic = LIGHTMAP_CACHE_MAGIC →
          exBadHdr.version = LIGHTMAP_CACHE_VERSION → exBadHdr.stored_hash ≠ 0 →
        parse_cache exBadMagic 0 = .error .staleCache
          ∧ ∀ st0 : MeshState, load_lightmap_cache st0 exBadMagic 0 = (false, st0))
      ∧ (∀ (rec : CacheRecord) (rem : List Nat),
          parse_cache exBadMagic 0 = .ok (rec, rem) →
          exBadHdr.magic = LIGHTMAP_CACHE_MAGIC
            ∧ exBadHdr.version = LIGHTMAP_CACHE_VERSION
            ∧ exBadHdr.stored_hash = 0)) :=
  ⟨by decide, c3_decode_validation exBadMagic 0 exBadHdr [] (by decide)⟩

/-- C4. Decode atomicity under truncation: every strict prefix of a
valid cache record fails with a truncation-class error, and on every
decode failure whatsoever the mesh's vertices, indices, submeshes, and
atlas dimensions are left exactly as they were. -/
theorem c4_truncation_atomicity (st : MeshState) (h : Nat) (P Q : List Nat)
    (hWF : WFMesh st) (hh : h < U64)
    (hPQ : save_lightmap_cache st h = P ++ Q) (hQ : Q ≠ []) :
    (∃ e : CacheError, parse_cache P h = .error e ∧ e.isTruncation = true
      ∧ ∀ st0 : MeshState, load_lightmap_cache st0 P h = (false, st0))
    ∧ ∀ (st0 : MeshState) (data : List Nat) (eh : Nat) (e : CacheError),
        parse_cache data eh = .error e → load_lightmap_cache st0 data eh = (false, st0) := by
  obtain ⟨e, he, ht⟩ := parse_cache_cut_short st h hWF hh P Q hPQ hQ
  exact ⟨⟨e, he, ht, fun st0 => load_fail_unchanged st0 P h e he⟩,
    fun st0 data eh e hp => load_fail_unchanged st0 data eh e hp⟩

/-- The first 50 bytes of the saved record for `exMesh`: the header plus
part of the first vertex (a truncation mid-vertex-array). -/
def exTruncated : List Nat := (save_lightmap_cache exMesh 99).take 50

/-- The bytes cut off from the saved record for `exMesh`. -/
def exCutOff : List Nat := (save_lightmap_cache exMesh 99).drop 50

/-- Witness for C4 on a record truncated mid-vertex-array. -/
theorem c4_truncation_atomicity_witness :
    (WFMesh exMesh ∧ 99 < U64
      ∧ save_lightmap_cache exMesh 99 = exTruncated ++ exCutOff ∧ exCutOff ≠ [])
    ∧ (∃ e : CacheError, parse_cache exTruncated 99 = .error e ∧ e.isTruncation = true
        ∧ ∀ st0 : MeshState, load_lightmap_cache st0 exTruncated 99 = (false, st0)) :=
  ⟨⟨by decide, by decide, (List.take_append_drop 50 _).symm, by decide⟩,
    (c4_truncation_atomicity exMesh 99 exTruncated exCutOff (by decide) (by decide)
      (List.take_append_drop 50 _).symm (by decide)).1⟩

/-- A zero initialized xatlas output vertex, used as an indexing
default. -/
def zeroXVertex : XVertex := ⟨0, 0, 0⟩

theorem getD_map_lt {α β : Type} (f : α → β) (l : List α) (i : Nat) (hi : i < l.length)
    (d : β) (d' : α) : (l.map f).getD i d = f (l.getD i d') := by
  induction l generalizing i with
  | nil => simp at hi
  | cons a as ih =>
    cases i with
    | zero => rfl
    | succ j => exact ih j (by simpa using hi)

/-- C5. Submesh postcondition of a successful consolidation: every
submesh keeps its `index_count`, gets `base_index` equal to the sum of
the preceding submeshes' index counts, `base_vertex` 0, and
`vertex_count` equal to the new total vertex count; and assuming the
pre-consolidation invariant that the index counts sum to the index
buffer length and the packer's index-count-preserving contract, the sum
of the index counts equals the index buffer length after consolidation
as well. -/
theorem c5_submesh_rebase (fdiv : Nat → Nat → Nat) (atlas : Atlas) (st res : MeshState)
    (dsm : SubMesh) (hgen : generate_lightmap_uvs fdiv atlas st = (true, res))
    (hsum : sumIndexCounts st.m_sub_meshes = st.m_indices.length)
    (hpack : (atlas.meshes.getD 0 emptyXMesh).indexArray.length = st.m_indices.length) :
    res.m_sub_meshes.length = st.m_sub_meshes.length
    ∧ (∀ i : Nat, i < st.m_sub_meshes.length →
        (res.m_sub_meshes.getD i dsm).index_count = (st.m_sub_meshes.getD i dsm).index_count
        ∧ (res.m_sub_meshes.getD i dsm).base_index =
          sumIndexCounts (st.m_sub_meshes.take i)
        ∧ (res.m_sub_meshes.getD i dsm).base_vertex = 0
        ∧ (res.m_sub_meshes.getD i dsm).vertex_count = res.m_vertices.length)
    ∧ sumIndexCounts res.m_sub_meshes = res.m_indices.length := by
  obtain ⟨hv, hi, hok, hw, hh, hm, hres⟩ := generate_inv hgen
  refine ⟨?_, fun i hi2 => ?_, ?_⟩
  · simp only [hres]
    exact rebase_length _ 0 _
  · simp only [hres]
    rw [rebase_getD _ dsm st.m_sub_meshes 0 i hi2]
    exact ⟨rfl, by rw [Nat.zero_add], rfl, by simp⟩
  · simp only [hres]
    rw [rebase_sum]
    exact hsum.trans hpack.symm

/-- A pre-atlas snapshot: one vertex, one triangle (degenerate, all
three corners the same vertex), one submesh covering the three
indices. -/
def exPreMesh : MeshState := ⟨[exVertex], [0, 0, 0], [exSubMesh], 0, 0, false⟩

/-- A packer output that splits the single pre-atlas vertex across a UV
seam into two output vertices (both with back-reference 0, different
atlas positions) on a 4x8 atlas, keeping the three-index triangle. -/
def exAtlas : Atlas := ⟨true, 4, 8, [⟨[⟨0, 1, 2⟩, ⟨0, 3, 4⟩], [0, 1, 0]⟩]⟩

/-- A concrete stand-in for IEEE float division on bit patterns. -/
def exFdiv : Nat → Nat → Nat := fun a b => a * 1024 + b

/-- The consolidated state the packer output above produces. -/
def exRes : MeshState := (generate_lightmap_uvs exFdiv exAtlas exPreMesh).2

/-- Witness for C5 on the seam-splitting example. -/
theorem c5_submesh_rebase_witness :
    (generate_lightmap_uvs exFdiv exAtlas exPreMesh = (true, exRes)
      ∧ sumIndexCounts exPreMesh.m_sub_meshes = exPreMesh.m_indices.length
      ∧ (exAtlas.meshes.getD 0 emptyXMesh).indexArray.length = exPreMesh.m_indices.length)
    ∧ (exRes.m_sub_meshes.length = exPreMesh.m_sub_meshes.length
      ∧ (∀ i : Nat, i < exPreMesh.m_sub_meshes.length →
          (exRes.m_sub_meshes.getD i exSubMesh).index_count =
            (exPreMesh.m_sub_meshes.getD i exSubMesh).index_count
          ∧ (exRes.m_sub_meshes.getD i exSubMesh).base_index =
            sumIndexCounts (exPreMesh.m_sub_meshes.take i)
          ∧ (exRes.m_sub_meshes.getD i exSubMesh).base_vertex = 0
          ∧ (exRes.m_sub_meshes.getD i exSubMesh).vertex_count = exRes.m_vertices.length)
      ∧ sumIndexCounts exRes.m_sub_meshes = exRes.m_indices.length) :=
  ⟨⟨by decide, by decide, by decide⟩,
    c5_submesh_rebase exFdiv exAtlas exPreMesh exRes exSubMesh (by decide) (by decide)
      (by decide)⟩

/-- C6. Consolidation vertex rule: the output vertex buffer has exactly
one vertex per packer output vertex; each one is the pre-atlas vertex at
the packer's back-reference with all attributes copied and only the
lightmap UV overwritten with the atlas position divided by the atlas
dimensions; and any two output vertices with the same back-reference
(a seam split) share the position and normal of their common source
while carrying their own lightmap UVs. -/
theorem c6_vertex_rule (fdiv : Nat → Nat → Nat) (atlas : Atlas) (st res : MeshState)
    (hgen : generate_lightmap_uvs fdiv atlas st = (true, res))
    (hxref : ∀ xv ∈ (atlas.meshes.getD 0 emptyXMesh).vertexArray,
      xv.xref < st.m_vertices.length) :
    res.m_vertices.length = (atlas.meshes.getD 0 emptyXMesh).vertexArray.length
    ∧ (∀ i : Nat, i < (atlas.meshes.getD 0 emptyXMesh).vertexArray.length →
        res.m_vertices.getD i zeroVertex =
          { st.m_vertices.getD
              (((atlas.meshes.getD 0 emptyXMesh).vertexArray.getD i zeroXVertex).xref)
              zeroVertex with
            lightmap_tex_coord :=
              ⟨fdiv ((atlas.meshes.getD 0 emptyXMesh).vertexArray.getD i zeroXVertex).uv0
                  atlas.width,
                fdiv ((atlas.meshes.getD 0 emptyXMesh).vertexArray.getD i zeroXVertex).uv1
                  atlas.height,
                0, 0⟩ })
    ∧ (∀ i j : Nat, i < (atlas.meshes.getD 0 emptyXMesh).vertexArray.length →
        j < (atlas.meshes.getD 0 emptyXMesh).vertexArray.length →
        ((atlas.meshes.getD 0 emptyXMesh).vertexArray.getD i zeroXVertex).xref =
          ((atlas.meshes.getD 0 emptyXMesh).vertexArray.getD j zeroXVertex).xref →
        (res.m_vertices.getD i zeroVertex).position =
          (res.m_vertices.getD j zeroVertex).position
        ∧ (res.m_vertices.getD i zeroVertex).normal =
          (res.m_vertices.getD j zeroVertex).normal) := by
  obtain ⟨hv, hi, hok, hw, hh, hm, hres⟩ := generate_inv hgen
  refine ⟨?_, fun i hi2 => ?_, fun i j hi2 hj2 hx => ?_⟩
  · simp only [hres]
    exact List.length_map _ _
  · simp only [hres]
    exact getD_map_lt _ _ i hi2 zeroVertex zeroXVertex
  · simp only [hres]
    have hpos : ∀ xv : XVertex,
        ((fun (xv : XVertex) => { st.m_vertices.getD xv.xref zeroVertex with
            lightmap_tex_coord :=
              ⟨fdiv xv.uv0 atlas.width, fdiv xv.uv1 atlas.height, 0, 0⟩ }) xv).position =
          (st.m_vertices.getD xv.xref zeroVertex).position := fun xv => rfl
    have hnorm : ∀ xv : XVertex,
        ((fun (xv : XVertex) => { st.m_vertices.getD xv.xref zeroVertex with
            lightmap_tex_coord :=
              ⟨fdiv xv.uv0 atlas.width, fdiv xv.uv1 atlas.height, 0, 0⟩ }) xv).normal =
          (st.m_vertices.getD xv.xref zeroVertex).normal := fun xv => rfl
    rw [getD_map_lt (fun xv => { st.m_vertices.getD xv.xref zeroVertex with
          lightmap_tex_coord :=
            ⟨fdiv xv.uv0 atlas.width, fdiv xv.uv1 atlas.height, 0, 0⟩ })
        (atlas.meshes.getD 0 emptyXMesh).vertexArray i hi2 zeroVertex zeroXVertex,
      getD_map_lt (fun xv => { st.m_vertices.getD xv.xref zeroVertex with
          lightmap_tex_coord :=
            ⟨fdiv xv.uv0 atlas.width, fdiv xv.uv1 atlas.height, 0, 0⟩ })
        (atlas.meshes.getD 0 emptyXMesh).vertexArray j hj2 zeroVertex zeroXVertex]
    constructor
    · rw [hpos, hpos, hx]
    · rw [hnorm, hnorm, hx]

/-- Witness for C6 on the seam-splitting example: the single pre-atlas
vertex becomes two output vertices (buffer one larger), sharing
position and normal but with distinct lightmap UVs. -/
theorem c6_vertex_rule_witness :
    (generate_lightmap_uvs exFdiv exAtlas exPreMesh = (true, exRes)
      ∧ (∀ xv ∈ (exAtlas.meshes.getD 0 emptyXMesh).vertexArray,
          xv.xref < exPreMesh.m_vertices.length)
      ∧ exRes.m_vertices.length = exPreMesh.m_vertices.length + 1
      ∧ (exRes.m_vertices.getD 0 zeroVertex).lightmap_tex_coord ≠
        (exRes.m_vertices.getD 1 zeroVertex).lightmap_tex_coord)
    ∧ (exRes.m_vertices.length = (exAtlas.meshes.getD 0 emptyXMesh).vertexArray.length
      ∧ (∀ i : Nat, i < (exAtlas.meshes.getD 0 emptyXMesh).vertexArray.length →
          exRes.m_vertices.getD i zeroVertex =
            { exPreMesh.m_vertices.getD
                (((exAtlas.meshes.getD 0 emptyXMesh).vertexArray.getD i zeroXVertex).xref)
                zeroVertex with
              lightmap_tex_coord :=
                ⟨exFdiv ((exAtlas.meshes.getD 0 emptyXMesh).vertexArray.getD i
                      zeroXVertex).uv0 exAtlas.width,
                  exFdiv ((exAtlas.meshes.getD 0 emptyXMesh).vertexArray.getD i
                      zeroXVertex).uv1 exAtlas.height,
                  0, 0⟩ })
      ∧ (∀ i j : Nat, i < (exAtlas.meshes.getD 0 emptyXMesh).vertexArray.length →
          j < (exAtlas.meshes.getD 0 emptyXMesh).vertexArray.length →
          ((exAtlas.meshes.getD 0 emptyXMesh).vertexArray.getD i zeroXVertex).xref =
            ((exAtlas.meshes.getD 0 emptyXMesh).vertexArray.getD j zeroXVertex).xref →
          (exRes.m_vertices.getD i zeroVertex).position =
            (exRes.m_vertices.getD j zeroVertex).position
          ∧ (exRes.m_vertices.getD i zeroVertex).normal =
            (exRes.m_vertices.getD j zeroVertex).normal)) :=
  ⟨⟨by decide, by decide, by decide, by decide⟩,
    c6_vertex_rule exFdiv exAtlas exPreMesh exRes (by decide) (by decide)⟩

/-- A packer output reporting a nonzero atlas but zero meshes (a
packer-contract violation). -/
def exC7Atlas : Atlas := ⟨true, 4, 8, []⟩

/-- C7 counterexample: on the unexpected-mesh-count failure path the
call fails and leaves vertices, indices, and submeshes alone, but the
mesh state is NOT left unmutated — the atlas dimension fields
`m_lightmap_width`/`m_lightmap_height` have already been overwritten
(the code assigns them before the mesh-count check), so the claim that
every one of the three failure paths leaves the mesh state untouched is
false. -/
theorem c7_failure_frame_counterexample :
    (generate_lightmap_uvs exFdiv exC7Atlas exPreMesh).1 = false
    ∧ (generate_lightmap_uvs exFdiv exC7Atlas exPreMesh).2 ≠ exPreMesh
    ∧ (generate_lightmap_uvs exFdiv exC7Atlas exPreMesh).2.m_lightmap_width = 4
    ∧ exPreMesh.m_lightmap_width = 0
    ∧ (generate_lightmap_uvs exFdiv exC7Atlas exPreMesh).2.m_vertices = exPreMesh.m_vertices
    ∧ (generate_lightmap_uvs exFdiv exC7Atlas exPreMesh).2.m_indices = exPreMesh.m_indices
    ∧ (generate_lightmap_uvs exFdiv exC7Atlas exPreMesh).2.m_sub_meshes =
      exPreMesh.m_sub_meshes := by
  decide

/-- C7 (amended). Atlas-stage failure frame: `generate_lightmap_uvs`
fails on empty input geometry, on zero packer atlas dimensions, and on
a packer mesh count other than one; the first two failure paths leave
the whole mesh state untouched, and the mesh-count path leaves the
vertices, indices, and submeshes untouched but has already overwritten
the stored atlas dimensions. -/
theorem c7_failure_frame (fdiv : Nat → Nat → Nat) (atlas : Atlas) (st : MeshState) :
    (st.m_vertices = [] ∨ st.m_indices = [] →
      generate_lightmap_uvs fdiv atlas st = (false, st))
    ∧ (st.m_vertices ≠ [] → st.m_indices ≠ [] → atlas.addMeshOk = true →
        atlas.width = 0 ∨ atlas.height = 0 →
      generate_lightmap_uvs fdiv atlas st = (false, st))
    ∧ (st.m_vertices ≠ [] → st.m_indices ≠ [] → atlas.addMeshOk = true →
        atlas.width ≠ 0 → atlas.height ≠ 0 → atlas.meshes.length ≠ 1 →
      generate_lightmap_uvs fdiv atlas st =
        (false,
          { st with m_lightmap_width := atlas.width, m_lightmap_height := atlas.height })) :=
  ⟨fun he => generate_empty fdiv atlas st he,
    fun hv hi hok hwh => generate_zero_dims fdiv atlas st hv hi hok hwh,
    fun hv hi hok hw hh hm => generate_bad_count fdiv atlas st hv hi hok hw hh hm⟩

/-- Witness for C7 (amended) on the zero-mesh packer output. -/
theorem c7_failure_frame_witness :
    (exPreMesh.m_vertices ≠ [] ∧ exPreMesh.m_indices ≠ [] ∧ exC7Atlas.addMeshOk = true
      ∧ exC7Atlas.width ≠ 0 ∧ exC7Atlas.height ≠ 0 ∧ exC7Atlas.meshes.length ≠ 1)
    ∧ generate_lightmap_uvs exFdiv exC7Atlas exPreMesh =
      (false,
        { exPreMesh with
          m_lightmap_width := exC7Atlas.width
          m_lightmap_height := exC7Atlas.height }) :=
  ⟨⟨by decide, by decide, by decide, by decide, by decide, by decide⟩,
    (c7_failure_frame exFdiv exC7Atlas exPreMesh).2.2 (by decide) (by decide) (by decide)
      (by decide) (by decide) (by decide)⟩

/-- The empty mesh snapshot an importer failure would produce. -/
def exEmptyMesh : MeshState := ⟨[], [], [], 0, 0, false⟩

/-- C9 counterexample: when lightmap generation is requested on empty
pre-atlas geometry (no cache on disk), the mesh load does NOT fail —
`Mesh::Mesh` has no failure channel, `generate_lightmap_uvs` returns
false, and the constructor silently completes with the original empty
geometry and no lightmap UVs: exactly the degraded-but-successful
outcome the claim says cannot happen. -/
theorem c9_empty_load_counterexample :
    mesh_lightmap_pipeline exFdiv none exC7Atlas exEmptyMesh = (exEmptyMesh, none)
    ∧ exEmptyMesh.m_has_lightmap_uvs = false := by
  decide

/-- C9 (amended). Empty geometry degrades the load instead of aborting
it: with lightmap generation requested, no usable cache, and empty
pre-atlas geometry, the constructor pipeline completes normally,
leaves the mesh exactly as imported (no lightmap UVs), writes no cache
file, and surfaces no failure to the caller. -/
theorem c9_empty_degrades (fdiv : Nat → Nat → Nat) (atlas : Atlas) (st : MeshState)
    (hempty : st.m_vertices = [] ∨ st.m_indices = []) :
    mesh_lightmap_pipeline fdiv none atlas st = (st, none) := by
  unfold mesh_lightmap_pipeline
  simp [generate_empty fdiv atlas st hempty]

/-- Witness for C9 (amended) at the concrete empty mesh. -/
theorem c9_empty_degrades_witness :
    (exEmptyMesh.m_vertices = [] ∨ exEmptyMesh.m_indices = [])
    ∧ mesh_lightmap_pipeline exFdiv none exC7Atlas exEmptyMesh = (exEmptyMesh, none) :=
  ⟨Or.inl rfl, c9_empty_degrades exFdiv exC7Atlas exEmptyMesh (Or.inl rfl)⟩
